import Mathlib

/-!
Shallow embedding of the aws-lambda-typescript-runtime repository
(src/runtime-layer/runtime.ts and src/runtime-layer/helpers.ts).

The runtime is a poll - invoke - report loop over a control-plane HTTP
API.  Network exchanges, the dynamic module loader and the user handler
are external collaborators; they are represented by explicit oracles
(per-cycle outcomes), and the observable behavior of the loop is the
list of control-plane calls, log lines and process-exit calls it emits.
Pure fragments of the source (URL builders, error normalization, the
handler-specifier split, context construction, the response-status
predicate) are translated directly as Lean functions.
-/

/-- Static configuration read once from the process environment at
startup (runtime.ts lines 23-33): function name, version, memory size,
log group and stream, task root, handler specifier, control-plane base
URL. -/
structure StaticConfig where
  functionName : String
  functionVersion : String
  memorySize : String
  logGroupName : String
  logStreamName : String
  taskRoot : String
  handlerSpec : String
  runtimeApi : String
deriving DecidableEq

/-- Values carried by the headers of a poll response on the wire:
request id, function ARN, deadline in ms, and the optional
client-context, cognito-identity and trace-id header values.  The Node
http transport (helpers.ts line 21) lower-cases every delivered header
name, so each of these values reaches the runtime under its lower-cased
name; the map actually indexed by the runtime is built from this record
by wireHeaders.  Optional JSON header values are kept as their raw
strings; their JSON.parse is opaque to the runtime. -/
structure Headers where
  awsRequestId : String
  invokedFunctionArn : String
  deadlineMs : Int
  clientContext : Option String
  cognitoIdentity : Option String
  traceId : Option String
deriving DecidableEq

/-- The IAWSLambdaContext record built per invocation (runtime.ts lines
10-21 and 73-83).  The getRemainingTimeInMillis closure captures only
the deadline, so the record stores the deadline and the accessor is a
function of the current time. -/
structure IAWSLambdaContext where
  awsRequestId : String
  invokedFunctionArn : String
  logGroupName : String
  logStreamName : String
  functionName : String
  functionVersion : String
  memoryLimitInMB : String
  clientContext : Option String
  identity : Option String
  deadline : Int
deriving DecidableEq

/-- The accessor body from runtime.ts line 81: deadline - Date.now(),
with the call-time clock value passed explicitly. -/
def IAWSLambdaContext.getRemainingTimeInMillis (ctx : IAWSLambdaContext) (now : Int) : Int :=
  ctx.deadline - now

/-- A thrown JavaScript Error value: name, message and the optional
textual stack. -/
structure JsError where
  name : String
  message : String
  stack : Option String
deriving DecidableEq

/-- The IAWSLambdaError record (runtime.ts lines 4-8). -/
structure IAWSLambdaError where
  errorType : String
  errorMessage : String
  stackTrace : List String
deriving DecidableEq

/-- Helper for splitChar: walks the character list, cutting at each
separator; acc holds the characters of the current piece, reversed. -/
def splitCharAux (c : Char) : List Char → List Char → List String
  | [], acc => [String.mk acc.reverse]
  | x :: xs, acc =>
    if x = c then String.mk acc.reverse :: splitCharAux c xs []
    else splitCharAux c xs (x :: acc)

/-- The JavaScript String.split method for a one-character separator,
as used by the source on dot and on newline: every piece is kept,
including empty pieces and the piece before the first separator, and
splitting the empty string yields one empty piece. -/
def splitChar (c : Char) (s : String) : List String :=
  splitCharAux c s.data []

/-- createError from runtime.ts lines 41-47: errorType is err.name,
errorMessage is err.message, stackTrace is (err.stack or the empty
string) split on newline characters. -/
def createError (err : JsError) : IAWSLambdaError :=
  { errorType := err.name
    errorMessage := err.message
    stackTrace := splitChar '\n' (err.stack.getD "") }

/-- API_VERSION constant from runtime.ts line 35. -/
def API_VERSION : String := "/2018-06-01"

/-- URL of the next-invocation endpoint (runtime.ts line 37). -/
def getNextInvocationUrl (api : String) : String :=
  api ++ "/" ++ API_VERSION ++ "/runtime/invocation/next"

/-- URL of the per-invocation response endpoint (runtime.ts line 38). -/
def getInvocationResponseUrl (api requestId : String) : String :=
  api ++ "/" ++ API_VERSION ++ "/runtime/invocation/" ++ requestId ++ "/response"

/-- URL of the per-invocation error endpoint (runtime.ts line 39). -/
def getInvocationErrorUrl (api requestId : String) : String :=
  api ++ "/" ++ API_VERSION ++ "/runtime/invocation/" ++ requestId ++ "/error"

/-- URL of the init-error endpoint (runtime.ts line 40). -/
def getInitErrorUrl (api : String) : String :=
  api ++ "/" ++ API_VERSION ++ "/runtime/invocation/init/error"

/-- The error thrown for an invalid handler specifier (runtime.ts line
52).  A freshly constructed Error has name Error; its runtime stack
text is environment dependent and modelled as absent. -/
def invalidHandlerError (handler : String) : JsError :=
  { name := "Error", message := "Invalid handler: " ++ handler, stack := none }

/-- The error thrown when the resolved module lacks the named export
(runtime.ts line 59). -/
def handlerNotFoundError : JsError :=
  { name := "Error", message := "Handler function not found!", stack := none }

/-- The destructuring and validation step of getLambdaHandler
(runtime.ts lines 50-53): const parts = handler.split of dot; take the
first two components; throw when the first is empty or the second is
missing or empty (both are falsy in JS).  Components beyond the second
are ignored by the destructuring. -/
def splitHandlerSpec (handler : String) : Option (String × String) :=
  match splitChar '.' handler with
  | [] => none
  | p :: rest =>
    if p = "" ∨ rest.headD "" = "" then none else some (p, rest.headD "")

/-- join(root, path) from the path module; exact path normalization is
irrelevant to the claims, only that the loader is consulted at a key
derived from root and path. -/
def joinPath (root p : String) : String := root ++ "/" ++ p

/-- getLambdaHandler from runtime.ts lines 49-61.  The dynamic module
loader is an oracle mapping a path to either a load failure or the list
of export names of the loaded module.  The source also checks that the
imported module object is truthy; an ES module object is always truthy,
so that branch is unreachable and a successful import carries its
exports directly.  The returned value identifies the resolved handler
by path and export name. -/
def getLambdaHandler (imports : String → Except JsError (List String))
    (root handler : String) : Except JsError (String × String) :=
  match splitHandlerSpec handler with
  | none => .error (invalidHandlerError handler)
  | some (p, n) =>
    match imports (joinPath root p) with
    | .error e => .error e
    | .ok exports =>
      if exports.contains n then .ok (p, n) else .error handlerNotFoundError

/-- Context construction from runtime.ts lines 73-88: headers plus
static configuration give the per-invocation context; the deadline is
captured from the deadline header; optional client context and identity
come from their headers when present. -/
def buildContext (cfg : StaticConfig) (h : Headers) : IAWSLambdaContext :=
  { awsRequestId := h.awsRequestId
    invokedFunctionArn := h.invokedFunctionArn
    logGroupName := cfg.logGroupName
    logStreamName := cfg.logStreamName
    functionName := cfg.functionName
    functionVersion := cfg.functionVersion
    memoryLimitInMB := cfg.memorySize
    clientContext := h.clientContext
    identity := h.cognitoIdentity
    deadline := h.deadlineMs }

/-- Lookup in a delivered header map, as indexing data.headers with a
string key: the value of the first pair whose name equals the key
exactly, undefined when no name matches. -/
def headerLookup (hs : List (String × String)) (key : String) : Option String :=
  (hs.find? (fun kv => kv.1 == key)).map (fun kv => kv.2)

/-- The poll-response header map as the Node http transport delivers it
(helpers.ts line 21): every header name lower-cased, each optional
header present exactly when it was sent.  The deadline travels as its
decimal string; the source converts it back with a unary plus. -/
def wireHeaders (h : Headers) : List (String × String) :=
  [("lambda-runtime-aws-request-id", h.awsRequestId),
   ("lambda-runtime-invoked-function-arn", h.invokedFunctionArn),
   ("lambda-runtime-deadline-ms", toString h.deadlineMs)]
  ++ (match h.clientContext with
      | some v => [("lambda-runtime-client-context", v)]
      | none => [])
  ++ (match h.cognitoIdentity with
      | some v => [("lambda-runtime-cognito-identity", v)]
      | none => [])
  ++ (match h.traceId with
      | some v => [("lambda-runtime-trace-id", v)]
      | none => [])

/-- The assignment of runtime.ts line 89: the code indexes the delivered
headers at the capitalized name Lambda-Runtime-Trace-Id, unlike every
other header read in getNextInvocation, which uses lower-cased names.
The slot receives the lookup result as assigned to process.env, whose
Node semantics coerce an undefined value to the string undefined, so
the previous slot value is always overwritten with a string. -/
def updatedTraceSlot (_prev : Option String) (h : Headers) : Option String :=
  some ((headerLookup (wireHeaders h) "Lambda-Runtime-Trace-Id").getD "undefined")

/-- The pure content of getNextInvocation (runtime.ts lines 64-92) for a
successful poll: the decoded event body, the constructed context, and
the new value of the process-wide trace slot. -/
def getNextInvocation (cfg : StaticConfig) (prev : Option String) (h : Headers)
    (body : String) : String × IAWSLambdaContext × Option String :=
  (body, buildContext cfg h, updatedTraceSlot prev h)

/-- Outcome of one poll exchange: transport or JSON-decode failure, or a
response with headers and a body. -/
inductive PollOutcome where
  | ok (headers : Headers) (body : String)
  | fail (e : JsError)
deriving DecidableEq

/-- Outcome of one handler invocation: a returned result (opaque,
forwarded verbatim) or a thrown error. -/
inductive HandlerOutcome where
  | ok (result : String)
  | throws (e : JsError)
deriving DecidableEq

/-- Outcome of one POST exchange. -/
inductive SendOutcome where
  | delivered
  | fail (e : JsError)
deriving DecidableEq

/-- Oracle for one loop cycle: outcome of the poll, of the handler call,
of the response POST (used when the handler returns) and of the error
POST (used when the handler throws). -/
structure CycleOracle where
  poll : PollOutcome
  handler : HandlerOutcome
  respSend : SendOutcome
  errSend : SendOutcome
deriving DecidableEq

/-- Constructor shorthand for cycle oracles. -/
def mkCycle (p : PollOutcome) (ho : HandlerOutcome) (rs es : SendOutcome) : CycleOracle :=
  { poll := p, handler := ho, respSend := rs, errSend := es }

/-- Observable events of a run: control-plane calls with their URLs (one
constructor per call site in runtime.ts), a console.error line, a
process.exit call, and the rejection of a promise no local code ever
awaits or handles. -/
inductive Event where
  | getNext (url : String)
  | postResponse (url : String) (body : String)
  | postError (url : String) (body : IAWSLambdaError)
  | postInitError (url : String) (body : IAWSLambdaError)
  | logError (msg : String)
  | exitProcess (code : Nat)
  | unhandledRejection (e : JsError)
deriving DecidableEq

/-- The steady-state loop of startRuntime (runtime.ts lines 120-150),
as the event trace it emits under a list of cycle oracles; an empty
oracle list ends the observation window with the loop still running.
Each cycle: GET next; a poll failure escapes to the outer catch, which
logs the message and calls process.exit(1).  On a successful poll, the
handler is invoked; if it throws, handleInvocationError fires the error
POST WITHOUT awaiting it (runtime.ts line 137) and the loop continues,
so a failure of that POST surfaces only as an unhandled promise
rejection; if the handler returns, the response POST is awaited, and
its failure escapes to the outer catch (log plus exit 1). -/
def runCycles (cfg : StaticConfig) : List CycleOracle → List Event
  | [] => []
  | o :: rest =>
    Event.getNext (getNextInvocationUrl cfg.runtimeApi) ::
    match o.poll with
    | .fail e => [Event.logError e.message, Event.exitProcess 1]
    | .ok h _ =>
      match o.handler with
      | .throws e =>
        Event.postError (getInvocationErrorUrl cfg.runtimeApi h.awsRequestId) (createError e) ::
        match o.errSend with
        | .delivered => runCycles cfg rest
        | .fail e2 => Event.unhandledRejection e2 :: runCycles cfg rest
      | .ok result =>
        Event.postResponse (getInvocationResponseUrl cfg.runtimeApi h.awsRequestId) result ::
        match o.respSend with
        | .delivered => runCycles cfg rest
        | .fail e2 => [Event.logError e2.message, Event.exitProcess 1]

/-- startRuntime (runtime.ts lines 111-150): resolve the handler; on
failure POST to the init-error endpoint (fired without await) and call
process.exit(1), never polling; on success enter the steady-state
loop. -/
def startRuntime (cfg : StaticConfig) (imports : String → Except JsError (List String))
    (cycles : List CycleOracle) : List Event :=
  match getLambdaHandler imports cfg.taskRoot cfg.handlerSpec with
  | .error e =>
    [Event.postInitError (getInitErrorUrl cfg.runtimeApi) (createError e), Event.exitProcess 1]
  | .ok _ => runCycles cfg cycles

/-- Exit status set by the code itself: the code of the first
process.exit call in the trace, none when the code never exits. -/
def exitStatus : List Event → Option Nat
  | [] => none
  | Event.exitProcess c :: _ => some c
  | _ :: rest => exitStatus rest

/-- Predicate for poll calls in a trace. -/
def isGetNextEvent : Event → Bool
  | .getNext _ => true
  | _ => false

/-- Predicate for per-invocation error posts in a trace. -/
def isErrorPost : Event → Bool
  | .postError _ _ => true
  | _ => false

/-- Predicate for response posts in a trace. -/
def isResponsePost : Event → Bool
  | .postResponse _ _ => true
  | _ => false

/-- Predicate for init-error posts in a trace. -/
def isInitErrorPost : Event → Bool
  | .postInitError _ _ => true
  | _ => false

/-- Kinds of control-plane calls, for stating call orderings. -/
inductive CallKind where
  | next
  | response
  | err
  | initErr
deriving DecidableEq

/-- Kind of a trace event, when it is a control-plane call. -/
def eventCallKind : Event → Option CallKind
  | .getNext _ => some .next
  | .postResponse _ _ => some .response
  | .postError _ _ => some .err
  | .postInitError _ _ => some .initErr
  | _ => none

/-- Sequence of control-plane calls of a trace. -/
def callSequence (tr : List Event) : List CallKind :=
  tr.filterMap eventCallKind

/-- The result record of the transport layer (helpers.ts lines 5-9);
statusCode is used through a non-null assertion, so it is read as a
number. -/
structure IRequestResult where
  statusCode : Int
  body : String
deriving DecidableEq

/-- isResponseOk from helpers.ts line 46: statusCode at least 200 OR
statusCode at most 300. -/
def isResponseOk (response : IRequestResult) : Bool :=
  decide (200 ≤ response.statusCode) || decide (response.statusCode ≤ 300)

/-- Predicate written from the words of the specification, for
comparison with the validation the source performs: the specifier
splits on dot into exactly two components, both non-empty. -/
def specSplitsExactlyTwo (s : String) : Bool :=
  match splitChar '.' s with
  | [p, n] => !(p == "") && !(n == "")
  | _ => false

/-- Sample static configuration for concrete runs. -/
def sampleConfig : StaticConfig :=
  { functionName := "fn"
    functionVersion := "1"
    memorySize := "128"
    logGroupName := "lg"
    logStreamName := "ls"
    taskRoot := "/var/task"
    handlerSpec := "index.handler"
    runtimeApi := "127.0.0.1:9001" }

/-- Sample poll headers carrying a given request id. -/
def sampleHeaders (rid : String) : Headers :=
  { awsRequestId := rid
    invokedFunctionArn := "arn:aws:lambda:fn"
    deadlineMs := 1000
    clientContext := none
    cognitoIdentity := none
    traceId := none }

/-- Sample handler error. -/
def boomError : JsError :=
  { name := "Error", message := "boom", stack := some "Error: boom\nat handler" }

/-- Sample transport-level failure. -/
def transportError : JsError :=
  { name := "Error", message := "ECONNREFUSED", stack := none }

/-- Sample module loader whose every module exports only handler. -/
def sampleImports : String → Except JsError (List String) :=
  fun _ => .ok ["handler"]

/-- Scenario D oracle: cycles one and three succeed, cycle two throws. -/
def scenarioD : List CycleOracle :=
  [ { poll := .ok (sampleHeaders "r1") "e1", handler := .ok "res1",
      respSend := .delivered, errSend := .delivered },
    { poll := .ok (sampleHeaders "r2") "e2", handler := .throws boomError,
      respSend := .delivered, errSend := .delivered },
    { poll := .ok (sampleHeaders "r3") "e3", handler := .ok "res3",
      respSend := .delivered, errSend := .delivered } ]

/-- Cycle whose poll fails at the transport or decode level. -/
def pollFailCycle : CycleOracle :=
  { poll := .fail transportError, handler := .ok "unused",
    respSend := .delivered, errSend := .delivered }

/-- Cycle whose handler returns but whose response POST fails. -/
def respFailCycle : CycleOracle :=
  { poll := .ok (sampleHeaders "r9") "e9", handler := .ok "res9",
    respSend := .fail transportError, errSend := .delivered }

/-- Cycle whose handler throws and whose error POST fails. -/
def errFailCycle : CycleOracle :=
  { poll := .ok (sampleHeaders "r8") "e8", handler := .throws boomError,
    respSend := .delivered, errSend := .fail transportError }


/-- Module loader whose modules load but export nothing, so handler
resolution fails with the missing-export error. -/
def missingExportImports : String → Except JsError (List String) :=
  fun _ => .ok []

/-- Poll headers whose wire map carries a trace id but no
client-context and no cognito-identity header. -/
def tracedHeaders : Headers :=
  { awsRequestId := "r7"
    invokedFunctionArn := "arn:aws:lambda:fn"
    deadlineMs := 1000
    clientContext := none
    cognitoIdentity := none
    traceId := some "Root=1-abc" }

/-- C1: when the handler throws during an invocation, the runtime
builds an Invocation Error with createError, posts it once to the
per-invocation error endpoint of that cycle and proceeds to the next
poll: the subsequent trace starts with another GET of the next
endpoint, the cycle contributes exactly one error POST, and no
process-exit call is emitted by the cycle, so the exit status stays
unset. -/
theorem invocation_error_isolated (cfg : StaticConfig) (h : Headers) (body : String)
    (e : JsError) (rs : SendOutcome) (o2 : CycleOracle) (rest : List CycleOracle) :
    runCycles cfg (mkCycle (.ok h body) (.throws e) rs .delivered :: o2 :: rest)
      = Event.getNext (getNextInvocationUrl cfg.runtimeApi)
        :: Event.postError (getInvocationErrorUrl cfg.runtimeApi h.awsRequestId) (createError e)
        :: runCycles cfg (o2 :: rest)
    ∧ (∃ tr, runCycles cfg (o2 :: rest)
        = Event.getNext (getNextInvocationUrl cfg.runtimeApi) :: tr)
    ∧ (runCycles cfg [mkCycle (.ok h body) (.throws e) rs .delivered]).countP isErrorPost = 1
    ∧ exitStatus (runCycles cfg [mkCycle (.ok h body) (.throws e) rs .delivered]) = none :=
  ⟨rfl, ⟨_, rfl⟩, rfl, rfl⟩

/-- C2 counterexample: the specifier a.b.c does not split into exactly
two non-empty components, so the claim calls it invalid, yet the source
validation accepts it, taking the first two components, and resolution
can succeed without any error. -/
theorem handler_split_iff_counterexample :
    specSplitsExactlyTwo "a.b.c" = false
    ∧ splitHandlerSpec "a.b.c" = some ("a", "b")
    ∧ getLambdaHandler (fun _ => .ok ["b"]) "rt" "a.b.c" = Except.ok ("a", "b") :=
  ⟨by decide, by decide, rfl⟩

/-- C2 amended: the validation rejects a specifier exactly when the
first component of its dot split is empty or the second component is
absent or empty; components beyond the second are ignored.  For a
specifier without a separator the split has a single component, and
resolution fails with the invalid-handler error for every module
loader, hence before the loader or any network endpoint is consulted. -/
theorem handler_split_validation (s root : String)
    (imports : String → Except JsError (List String)) :
    (splitHandlerSpec s = none ↔
      ((splitChar '.' s).headD "" = "" ∨ ((splitChar '.' s).drop 1).headD "" = ""))
    ∧ ((splitChar '.' s).length = 1 →
        getLambdaHandler imports root s = .error (invalidHandlerError s)) := by
  constructor
  · unfold splitHandlerSpec
    cases hsplit : splitChar '.' s with
    | nil => simp
    | cons p rest =>
      simp only [List.headD_cons, List.drop_succ_cons, List.drop_zero]
      by_cases hc : p = "" ∨ rest.headD "" = ""
      · rw [if_pos hc]
        exact iff_of_true rfl hc
      · rw [if_neg hc]
        exact iff_of_false (by simp) hc
  · intro hlen
    unfold getLambdaHandler splitHandlerSpec
    cases hsplit : splitChar '.' s with
    | nil => simp [hsplit] at hlen
    | cons p rest =>
      rw [hsplit] at hlen
      simp only [List.length_cons, List.length_eq_zero, Nat.add_left_eq_self] at hlen
      subst hlen
      simp

/-- C2 amended witness: a concrete separator-free specifier is rejected
with the invalid-handler error under a concrete loader. -/
theorem handler_split_validation_witness :
    getLambdaHandler sampleImports "/var/task" "nodots"
      = Except.error (invalidHandlerError "nodots") :=
  (handler_split_validation "nodots" "/var/task" sampleImports).2 (by decide)

/-- C3: createError maps a thrown failure to the record whose errorType
is the failure name, whose errorMessage is its message, and whose
stackTrace is the stack text split on newlines with every line kept;
at the concrete TypeError of the claim the result is exactly the stated
record, with the first descriptive line kept. -/
theorem createError_normalization (err : JsError) :
    (createError err).errorType = err.name
    ∧ (createError err).errorMessage = err.message
    ∧ (createError err).stackTrace = splitChar '\n' (err.stack.getD "")
    ∧ createError { name := "TypeError", message := "bad",
                    stack := some "TypeError: bad\nat foo\nat bar" }
      = { errorType := "TypeError", errorMessage := "bad",
          stackTrace := ["TypeError: bad", "at foo", "at bar"] } :=
  ⟨rfl, rfl, rfl, by decide⟩

/-- C4: when handler resolution fails during initialization, the
runtime posts exactly once to the init-error endpoint, exits with
status 1, and performs zero polls of the next endpoint: the steady
state loop is never entered. -/
theorem init_failure_behavior (cfg : StaticConfig)
    (imports : String → Except JsError (List String)) (cycles : List CycleOracle)
    (e : JsError)
    (hres : getLambdaHandler imports cfg.taskRoot cfg.handlerSpec = .error e) :
    startRuntime cfg imports cycles
      = [Event.postInitError (getInitErrorUrl cfg.runtimeApi) (createError e),
         Event.exitProcess 1]
    ∧ (startRuntime cfg imports cycles).countP isGetNextEvent = 0
    ∧ (startRuntime cfg imports cycles).countP isInitErrorPost = 1
    ∧ exitStatus (startRuntime cfg imports cycles) = some 1 := by
  have h1 : startRuntime cfg imports cycles
      = [Event.postInitError (getInitErrorUrl cfg.runtimeApi) (createError e),
         Event.exitProcess 1] := by
    unfold startRuntime
    rw [hres]
  refine ⟨h1, ?_, ?_, ?_⟩ <;> rw [h1] <;> rfl

/-- C4 witness: with a loader whose module lacks the named export, the
runtime posts the missing-export error to the init-error endpoint,
exits with status 1 and never polls. -/
theorem init_failure_behavior_witness :
    startRuntime sampleConfig missingExportImports []
      = [Event.postInitError (getInitErrorUrl sampleConfig.runtimeApi)
          (createError handlerNotFoundError),
         Event.exitProcess 1]
    ∧ (startRuntime sampleConfig missingExportImports []).countP isGetNextEvent = 0
    ∧ (startRuntime sampleConfig missingExportImports []).countP isInitErrorPost = 1
    ∧ exitStatus (startRuntime sampleConfig missingExportImports []) = some 1 :=
  init_failure_behavior sampleConfig missingExportImports [] handlerNotFoundError rfl

/-- C5: the code treats a poll failure and a response-post failure as
fatal through the outer catch, logging the message and exiting with
status 1, but a transport failure of the per-invocation error POST is
fired without await: its rejection bypasses every local handler, the
code emits no log and no exit call, and the loop polls again, so the
exit status set by the code stays unset and the call sequence continues
past the failed error post. -/
theorem transport_failure_code_behavior :
    runCycles sampleConfig [pollFailCycle]
      = [Event.getNext (getNextInvocationUrl sampleConfig.runtimeApi),
         Event.logError "ECONNREFUSED", Event.exitProcess 1]
    ∧ runCycles sampleConfig [respFailCycle]
      = [Event.getNext (getNextInvocationUrl sampleConfig.runtimeApi),
         Event.postResponse (getInvocationResponseUrl sampleConfig.runtimeApi "r9") "res9",
         Event.logError "ECONNREFUSED", Event.exitProcess 1]
    ∧ runCycles sampleConfig (errFailCycle :: scenarioD)
      = Event.getNext (getNextInvocationUrl sampleConfig.runtimeApi)
        :: Event.postError (getInvocationErrorUrl sampleConfig.runtimeApi "r8")
             (createError boomError)
        :: Event.unhandledRejection transportError
        :: runCycles sampleConfig scenarioD
    ∧ exitStatus (runCycles sampleConfig (errFailCycle :: scenarioD)) = none
    ∧ callSequence (runCycles sampleConfig (errFailCycle :: scenarioD))
      = [.next, .err, .next, .response, .next, .err, .next, .response] :=
  ⟨rfl, rfl, rfl, by decide, by decide⟩

/-- C6: a successfully completing cycle performs exactly one response
POST, whose URL embeds the request id from the poll headers unchanged
between the invocation prefix and the response suffix, with the handler
result as body, and zero error-endpoint posts; a failing cycle echoes
the same request id unchanged in its error-endpoint URL. -/
theorem response_echoes_request_id (cfg : StaticConfig) (h : Headers) (body r : String)
    (e : JsError) (rs : SendOutcome) (rest : List CycleOracle) :
    runCycles cfg (mkCycle (.ok h body) (.ok r) .delivered .delivered :: rest)
      = Event.getNext (getNextInvocationUrl cfg.runtimeApi)
        :: Event.postResponse
             (cfg.runtimeApi ++ "/" ++ API_VERSION ++ "/runtime/invocation/"
               ++ h.awsRequestId ++ "/response") r
        :: runCycles cfg rest
    ∧ (runCycles cfg [mkCycle (.ok h body) (.ok r) .delivered .delivered]).countP
        isResponsePost = 1
    ∧ (runCycles cfg [mkCycle (.ok h body) (.ok r) .delivered .delivered]).countP
        isErrorPost = 0
    ∧ (runCycles cfg [mkCycle (.ok h body) (.ok r) .delivered .delivered]).countP
        isInitErrorPost = 0
    ∧ runCycles cfg (mkCycle (.ok h body) (.throws e) rs .delivered :: rest)
      = Event.getNext (getNextInvocationUrl cfg.runtimeApi)
        :: Event.postError
             (cfg.runtimeApi ++ "/" ++ API_VERSION ++ "/runtime/invocation/"
               ++ h.awsRequestId ++ "/error") (createError e)
        :: runCycles cfg rest :=
  ⟨rfl, rfl, rfl, rfl, rfl⟩

/-- C7: the remaining-time accessor of a built context evaluates the
captured deadline minus the clock value passed at each call, so it is
non-increasing across two calls at times t1 at most t2, it is negative
once the deadline has passed with no clamping, and each call returns
exactly deadline minus current time. -/
theorem remaining_time_fresh (cfg : StaticConfig) (h : Headers) (t1 t2 : Int) :
    (t1 ≤ t2 →
      (buildContext cfg h).getRemainingTimeInMillis t2
        ≤ (buildContext cfg h).getRemainingTimeInMillis t1)
    ∧ (h.deadlineMs < t2 → (buildContext cfg h).getRemainingTimeInMillis t2 < 0)
    ∧ (buildContext cfg h).getRemainingTimeInMillis t1 = h.deadlineMs - t1 := by
  simp only [IAWSLambdaContext.getRemainingTimeInMillis, buildContext]
  exact ⟨fun h12 => by omega, fun hp => by omega, by trivial⟩

/-- C7 witness: at the sample headers with deadline 1000, the value at
time 1500 is at most the value at time 900, and is negative. -/
theorem remaining_time_fresh_witness :
    ((buildContext sampleConfig (sampleHeaders "r1")).getRemainingTimeInMillis 1500
      ≤ (buildContext sampleConfig (sampleHeaders "r1")).getRemainingTimeInMillis 900)
    ∧ (buildContext sampleConfig (sampleHeaders "r1")).getRemainingTimeInMillis 1500 < 0 := by
  have h := remaining_time_fresh sampleConfig (sampleHeaders "r1") 900 1500
  exact ⟨h.1 (by decide), h.2.1 (by decide)⟩

/-- C8: the claimed overwrite with the trace id never happens.  At the
concrete failing input the wire map does carry the trace id under its
lower-cased delivered name, yet the capitalized lookup the code
performs misses, and the slot is set to the string undefined rather
than the trace id; in general, for every previous slot value and every
header record, the capitalized lookup misses and line 89 stores the
string undefined. -/
theorem trace_slot_casing_mismatch :
    headerLookup (wireHeaders tracedHeaders) "lambda-runtime-trace-id" = some "Root=1-abc"
    ∧ headerLookup (wireHeaders tracedHeaders) "Lambda-Runtime-Trace-Id" = none
    ∧ updatedTraceSlot (some "old-trace") tracedHeaders = some "undefined"
    ∧ (getNextInvocation sampleConfig (some "old-trace") tracedHeaders "ev").2.2
        ≠ some "Root=1-abc"
    ∧ ∀ (prev : Option String) (h : Headers), updatedTraceSlot prev h = some "undefined" := by
  refine ⟨by decide, by decide, by decide, by decide, ?_⟩
  intro prev h
  obtain ⟨rid, arn, dl, cc, ci, ti⟩ := h
  rcases cc with _ | v1 <;> rcases ci with _ | v2 <;> rcases ti with _ | v3 <;> rfl

/-- C9: over three consecutive cycles where invocations one and three
succeed and invocation two throws, the control-plane call sequence is
exactly next, response, next, error, next, response, and the full trace
pins each report between its own poll and the following poll. -/
theorem scenario_d_call_sequence :
    callSequence (runCycles sampleConfig scenarioD)
      = [.next, .response, .next, .err, .next, .response]
    ∧ runCycles sampleConfig scenarioD
      = [Event.getNext (getNextInvocationUrl sampleConfig.runtimeApi),
         Event.postResponse (getInvocationResponseUrl sampleConfig.runtimeApi "r1") "res1",
         Event.getNext (getNextInvocationUrl sampleConfig.runtimeApi),
         Event.postError (getInvocationErrorUrl sampleConfig.runtimeApi "r2")
           (createError boomError),
         Event.getNext (getNextInvocationUrl sampleConfig.runtimeApi),
         Event.postResponse (getInvocationResponseUrl sampleConfig.runtimeApi "r3") "res3"] :=
  ⟨by decide, rfl⟩

/-- C10: isResponseOk accepts every response whose status code is a
number, because the disjunction of at least 200 or at most 300 holds
for every integer; in particular 404 and 500 are classified as OK. -/
theorem isResponseOk_always_true (r : IRequestResult) :
    isResponseOk r = true
    ∧ isResponseOk { statusCode := 404, body := "" } = true
    ∧ isResponseOk { statusCode := 500, body := "" } = true := by
  refine ⟨?_, by decide, by decide⟩
  unfold isResponseOk
  rcases le_or_lt 200 r.statusCode with hc | hc
  · simp [hc]
  · have h2 : r.statusCode ≤ 300 := by omega
    simp [h2]
